import Mathlib

/-!
# Verification of WALKOFF `core/flag.py` (the "Step"/Flag executor)

Shallow embedding of `src/core/flag.py`: the `Flag` class (spec's "Step"),
its constructor, its `__call__` invocation semantics (filter chain, primary
input validation, argument routing dereference, action dispatch, callback
events) and its JSON serializer (`as_json` / `from_json`).

External collaborators of `flag.py` (the action registry `get_flag` /
`get_flag_api`, the parameter validators, the filter implementations) live
in modules that are not part of the sources; they are modelled from the
spec as an explicit environment `Env` of opaque functions, and the routing
dereferencer is modelled concretely from the spec's contract.

Python exceptions are modelled by `Except Exc`; side-effecting callback
events (`FlagSuccess` / `FlagError`) and the invocation of the action
callable are recorded in an explicit trace so that event ordering and
call counts are provable.
-/

namespace Walkoff

/-- Python values as they flow through a Flag invocation, restricted to
the flat values the executor's own code paths distinguish (the executor
never looks inside a structured value). The `ref` constructor is the
spec's "reference expression" argument value (tagged variant
`Reference(stepRef)`, per the spec's design notes): an argument value
that points at another step's output in the accumulator. -/
inductive PyVal where
  | none
  | bool (b : Bool)
  | int (n : Int)
  | str (s : String)
  | ref (step : String)
deriving DecidableEq, Repr

/-- Python exception classes that reach `Flag.__call__`'s handlers.
`invalidInput` is the typed `InvalidInput` validation error from
`core.helpers`; `invalidElementConstructed` is `InvalidElementConstructed`;
`unknownFlag` is the Action Directory lookup failure; `resolutionFailed`
is the routing-dereference failure; `other` is any other exception
(`except Exception`). -/
inductive Exc where
  | invalidInput (msg : String)
  | invalidElementConstructed (msg : String)
  | unknownFlag (action : String)
  | resolutionFailed (msg : String)
  | other (msg : String)
deriving DecidableEq, Repr

/-- One observable step of an invocation: the two callback events
(`callbacks.FlagSuccess.send` / `callbacks.FlagError.send`) plus a record
of the action callable being invoked (with its keyword arguments), kept in
one trace so that the order of events relative to the action call, and the
number of action calls, are provable. -/
inductive Ev where
  | flagSuccess
  | flagError
  | actionCalled (kwargs : List (String × PyVal))
deriving DecidableEq, Repr

/-- The shared accumulator: step identifier ↦ that step's last output. -/
abbrev Accum := List (String × PyVal)

/-- An argument mapping (Python dict of argument name to value), as an
association list in insertion order. -/
abbrev Args := List (String × PyVal)

/-- Opaque handle for a declared parameter schema (`args_api`): `flag.py`
never inspects it, only hands it to the external validator. -/
abbrev ArgsApi := String

/-- The action's primary-input schema (`data_in_api`): `flag.py` reads
only its `'name'` key; the rest is an opaque handle only interpreted by
the external validator. -/
structure DataInApi where
  name : String
  schema : String
deriving DecidableEq, Repr

/-- Modelled from the spec: a Filter entity (`core/filter.py` is not under
the sources). The spec treats each filter's implementation as an opaque
callable over `(value, context) -> value` that may raise, and requires
each filter to serialize by its own rules with order preserved; we model a
filter as its declaration data (action name plus arguments), with its
behaviour supplied by the environment's filter registry. -/
structure Filter where
  action : String
  args : Args
deriving DecidableEq, Repr

/-- Modelled from the spec: a filter's own serialized (JSON) form, a
structural image of its declaration data. -/
structure FilterJson where
  action : String
  args : Args
deriving DecidableEq, Repr

/-- Modelled from the spec: `Filter.as_json`, a pure structural transform. -/
def Filter.as_json (f : Filter) : FilterJson :=
  { action := f.action, args := f.args }

/-- Modelled from the spec: `Filter.from_json`, inverse of `Filter.as_json`. -/
def Filter.from_json (j : FilterJson) : Filter :=
  { action := j.action, args := j.args }

/-- Modelled from the spec: the external collaborators of `flag.py`
(none of their modules are under the sources).
* `flag_api` is `core.helpers.get_flag_api`: action name ↦ its declared
  `(parameterSchema, primaryInputSchema)` pair, failing when the action is
  absent from the Action Directory;
* `get_flag` is `core.helpers.get_flag`: action name ↦ the action callable
  (which takes keyword arguments and may raise), failing when absent;
* `validate_flag_parameters` is `core.validator.validate_flag_parameters`:
  schema plus candidate argument mapping ↦ coerced/validated mapping, or a
  typed validation error;
* `validate_parameter` is `core.validator.validate_parameter`: candidate
  primary-input value plus schema plus a diagnostic label ↦ coerced value,
  raising `InvalidInput` on mismatch;
* `filter_impl` is the filter registry: filter action name plus declared
  filter arguments ↦ the opaque `(value, context) -> value` callable,
  which may raise. -/
structure Env where
  flag_api : String → Option (ArgsApi × DataInApi)
  get_flag : String → Option (Args → Except Exc PyVal)
  validate_flag_parameters : ArgsApi → Args → String → Except Exc Args
  validate_parameter : PyVal → DataInApi → String → Except Exc PyVal
  filter_impl : String → Args → PyVal → Accum → Except Exc PyVal

/-- Modelled from the spec: `core.helpers.dereference_step_routing` (the
Argument Resolver; `core/helpers.py` is not under the sources). For every
argument whose value is a reference expression, looks up the referenced
step's most recent output in the accumulator; literal values pass through
unchanged; a reference to a step absent from the accumulator fails the
whole resolution (total-or-fail) with an error naming the argument and the
caller's diagnostic label. -/
def dereference_step_routing (args : Args) (accumulator : Accum)
    (label : String) : Except Exc Args :=
  args.mapM fun nv =>
    match nv.2 with
    | .ref step =>
      match accumulator.lookup step with
      | some out => .ok (nv.1, out)
      | Option.none =>
        .error (.resolutionFailed
          (label ++ ": unresolved reference in argument " ++ nv.1))
    | v => .ok (nv.1, v)

/-- Python `dict.update` with a single key: an existing key keeps its
position and gets the new value; a new key is appended. -/
def dictUpdate (d : Args) (k : String) (v : PyVal) : Args :=
  if d.any (fun kv => kv.1 == k) then
    d.map (fun kv => if kv.1 == k then (k, v) else kv)
  else d ++ [(k, v)]

/-- Python dict built from a list of `(name, value)` pairs (the dict
comprehension in `Flag.from_json`): later duplicates overwrite earlier
ones, first occurrence fixes the position. -/
def dictOfList (l : Args) : Args :=
  l.foldl (fun d nv => dictUpdate d nv.1 nv.2) []

/-- The Flag ("Step") entity, as built by `Flag.__init__`:
`name` and `uid` come from `ExecutionElement.__init__(self, action, uid)`,
the schemas from `get_flag_api(action)`, `args` from
`validate_flag_parameters`, `filters` from the constructor argument. -/
structure Flag where
  name : String
  uid : String
  action : String
  args_api : ArgsApi
  data_in_api : DataInApi
  args : Args
  filters : List Filter
deriving DecidableEq, Repr

/-- `Flag.__init__` on the non-XML path. `action`, `args`, `filters`,
`uid` are the optional constructor arguments; `freshUid` is the value
`uuid.uuid4().hex` would mint for this construction (the sole source of
nondeterminism, passed explicitly). Each failure is the exception the
Python constructor raises, aborting construction with no object. -/
def Flag.construct (env : Env) (action : Option String) (args : Option Args)
    (filters : Option (List Filter)) (uid : Option String)
    (freshUid : String) : Except Exc Flag :=
  match action with
  | Option.none =>
    .error (.invalidElementConstructed
      "Action or xml must be specified in flag constructor")
  | some act =>
    match env.flag_api act with
    | Option.none => .error (.unknownFlag act)
    | some apis =>
      match env.validate_flag_parameters apis.1 (args.getD []) act with
      | .error e => .error e
      | .ok vargs =>
        .ok { name := act, uid := uid.getD freshUid, action := act,
              args_api := apis.1, data_in_api := apis.2, args := vargs,
              filters := filters.getD [] }

/-- One filter application: `filter_element(data, accumulator)`, i.e. the
registered opaque callable for this filter's action, which may raise. -/
def Filter.call (env : Env) (f : Filter) (data : PyVal) (acc : Accum) :
    Except Exc PyVal :=
  env.filter_impl f.action f.args data acc

/-- The filter loop at the top of `Flag.__call__`: each filter consumes
its predecessor's output and the shared accumulator; a raised exception
aborts the loop. -/
def applyFilters (env : Env) : List Filter → PyVal → Accum → Except Exc PyVal
  | [], data, _ => .ok data
  | f :: rest, data, acc =>
    match Filter.call env f data acc with
    | .error e => .error e
    | .ok d => applyFilters env rest d acc

/-- `Flag.__call__(data_in, accumulator)`. The filter loop runs before the
`try:` block, so a filter exception propagates out as `.error`. Inside the
`try:`: validate the filtered value against `data_in_api`, dereference the
argument routing, send `FlagSuccess`, merge the validated value under
`data_in_api['name']`, look up and invoke the action callable, and return
its result; both `except` handlers send `FlagError` and return `False`.
The result pairs the trace of events/calls with the returned value. -/
def Flag.call (env : Env) (fl : Flag) (data_in : PyVal) (accumulator : Accum) :
    Except Exc (List Ev × PyVal) :=
  match applyFilters env fl.filters data_in accumulator with
  | .error e => .error e
  | .ok data =>
    match env.validate_parameter data fl.data_in_api ("Flag " ++ fl.action) with
    | .error _ => .ok ([.flagError], .bool false)
    | .ok data' =>
      match dereference_step_routing fl.args accumulator ("In Flag " ++ fl.name) with
      | .error _ => .ok ([.flagError], .bool false)
      | .ok rargs =>
        let merged := dictUpdate rargs fl.data_in_api.name data'
        match env.get_flag fl.action with
        | Option.none => .ok ([.flagSuccess, .flagError], .bool false)
        | some f =>
          match f merged with
          | .error _ =>
            .ok ([.flagSuccess, .actionCalled merged, .flagError], .bool false)
          | .ok r => .ok ([.flagSuccess, .actionCalled merged], r)

/-- The JSON object form of a Flag: `{uid, action, args: [{name, value}...],
filters: [...]}`; `uid` is optional on input (`'uid' in json_in`), always
present on output. -/
structure FlagJson where
  uid : Option String
  action : String
  args : Args
  filters : List FilterJson
deriving DecidableEq, Repr

/-- `Flag.as_json`: a pure structural transform of the Flag's fields. -/
def Flag.as_json (fl : Flag) : FlagJson :=
  { uid := some fl.uid, action := fl.action, args := fl.args,
    filters := fl.filters.map Filter.as_json }

/-- `Flag.from_json`: rebuild the argument dict from the name/value list,
take the document's `uid` or mint a fresh one (`freshUid` is the value
`uuid.uuid4().hex` would produce), parse the filters, and run the
constructor. -/
def Flag.from_json (env : Env) (j : FlagJson) (freshUid : String) :
    Except Exc Flag :=
  Flag.construct env (some j.action) (some (dictOfList j.args))
    (some (j.filters.map Filter.from_json)) (some (j.uid.getD freshUid))
    freshUid

/-- Discriminator for the action-invocation records in a trace, used to
count how often the action callable was invoked. -/
def Ev.isActionCall : Ev → Bool
  | .actionCalled _ => true
  | _ => false

/-! ## A concrete demonstration environment

Used by the witnesses and counterexamples below. It follows the spec's
interface contracts for the external collaborators: schema `"A"` declares
that every literal argument value must be an integer (reference
expressions cannot be checked until call time and pass), schema `"S"`
declares an integer primary input, and the filter registry provides the
spec's `addOne` and `double` example filters plus a filter whose callable
raises. -/

/-- Concrete external environment for the witnesses and counterexamples. -/
def demoEnv : Env where
  flag_api a :=
    if a == "truthy" || a == "echo" || a == "raiser" || a == "falsey" ||
        a == "ghost" then
      some ("A", ⟨"value", "S"⟩)
    else Option.none
  get_flag a :=
    if a == "echo" then
      some (fun kwargs => .ok ((kwargs.lookup "value").getD .none))
    else if a == "truthy" then some (fun _ => .ok (.bool true))
    else if a == "raiser" then some (fun _ => .error (.other "action failed"))
    else if a == "falsey" then some (fun _ => .ok (.bool false))
    else Option.none
  validate_flag_parameters api args _ :=
    if api == "A" then
      if args.all fun nv =>
          match nv.2 with
          | .int _ => true
          | .ref _ => true
          | _ => false
      then .ok args
      else .error (.invalidInput "flag arguments do not satisfy schema A")
    else .ok args
  validate_parameter v api _ :=
    if api.schema == "S" then
      match v with
      | .int n => .ok (.int n)
      | _ => .error (.invalidInput "expected an integer")
    else .ok v
  filter_impl name _ data _ :=
    if name == "addOne" then
      match data with
      | .int n => .ok (.int (n + 1))
      | _ => .error (.invalidInput "expected an integer")
    else if name == "double" then
      match data with
      | .int n => .ok (.int (2 * n))
      | _ => .error (.invalidInput "expected an integer")
    else if name == "boom" then .error (.other "boom")
    else .error (.other "unknown filter")

/-- A Flag whose action echoes its primary input, with one literal
argument and the spec's `[addOne, double]` filter chain. -/
def echoFlag : Flag :=
  { name := "echo", uid := "uid-echo", action := "echo", args_api := "A",
    data_in_api := ⟨"value", "S"⟩, args := [("extra", .int 7)],
    filters := [⟨"addOne", []⟩, ⟨"double", []⟩] }

/-- A Flag whose single filter's callable raises. -/
def boomFlag : Flag :=
  { name := "truthy", uid := "uid-boom", action := "truthy", args_api := "A",
    data_in_api := ⟨"value", "S"⟩, args := [], filters := [⟨"boom", []⟩] }

/-- A Flag whose action callable always raises. -/
def raiserFlag : Flag :=
  { name := "raiser", uid := "uid-raiser", action := "raiser",
    args_api := "A", data_in_api := ⟨"value", "S"⟩, args := [],
    filters := [] }

/-- A Flag whose action callable legitimately returns `False`. -/
def falseyFlag : Flag :=
  { name := "falsey", uid := "uid-falsey", action := "falsey",
    args_api := "A", data_in_api := ⟨"value", "S"⟩, args := [],
    filters := [] }

/-- A Flag whose action is declared in the Action Directory but has no
registered callable, so the `get_flag` lookup inside the `try:` block
raises. -/
def ghostFlag : Flag :=
  { name := "ghost", uid := "uid-ghost", action := "ghost",
    args_api := "A", data_in_api := ⟨"value", "S"⟩, args := [],
    filters := [] }

/-- A Flag with no filters, used to exercise the primary-input
validation failure path. -/
def plainFlag : Flag :=
  { name := "echo", uid := "uid-plain", action := "echo", args_api := "A",
    data_in_api := ⟨"value", "S"⟩, args := [], filters := [] }

/-- A Flag whose sole argument is a reference expression into the
accumulator. -/
def refFlag : Flag :=
  { name := "echo", uid := "uid-ref", action := "echo", args_api := "A",
    data_in_api := ⟨"value", "S"⟩, args := [("x", .ref "stepA")],
    filters := [] }

/-! ## Helper lemmas about the Python dict operations -/

/-- Updating a dict at a key it does not hold appends the pair. -/
theorem dictUpdate_of_not_mem (d : Args) (k : String) (v : PyVal)
    (h : ∀ p ∈ d, p.1 ≠ k) : dictUpdate d k v = d ++ [(k, v)] := by
  have hb : d.any (fun kv => kv.1 == k) = false := by
    rw [List.any_eq_false]
    intro p hp
    simpa using h p hp
  simp [dictUpdate, hb]

/-- Folding `dictUpdate` over pairs whose keys are fresh for the
accumulated dict and mutually distinct just appends them in order. -/
theorem foldl_dictUpdate_eq_append (l : Args) (acc : Args)
    (hl : (l.map Prod.fst).Nodup)
    (hd : ∀ p ∈ l, ∀ q ∈ acc, p.1 ≠ q.1) :
    l.foldl (fun d nv => dictUpdate d nv.1 nv.2) acc = acc ++ l := by
  induction l generalizing acc with
  | nil => simp
  | cons p tl ih =>
    obtain ⟨k, v⟩ := p
    rw [List.map_cons, List.nodup_cons] at hl
    simp only [List.foldl_cons]
    rw [dictUpdate_of_not_mem acc k v
      (fun q hq => (hd (k, v) (List.mem_cons_self _ _) q hq).symm)]
    have hfresh : ∀ p' ∈ tl, ∀ q ∈ acc ++ [(k, v)], p'.1 ≠ q.1 := by
      intro p' hp' q hq
      rcases List.mem_append.mp hq with hq | hq
      · exact hd p' (List.mem_cons_of_mem _ hp') q hq
      · have hq' : q = (k, v) := by simpa using hq
        subst hq'
        intro hpk
        exact hl.1 (hpk ▸ List.mem_map_of_mem Prod.fst hp')
    rw [ih (acc ++ [(k, v)]) hl.2 hfresh]
    simp

/-- Rebuilding a dict from a pair list with pairwise-distinct keys (the
`from_json` dict comprehension) reproduces the list. -/
theorem dictOfList_eq_self (l : Args) (hl : (l.map Prod.fst).Nodup) :
    dictOfList l = l := by
  have := foldl_dictUpdate_eq_append l [] hl (by simp)
  simpa [dictOfList] using this

/-! ## C1 -/

/-- C1 counterexample: the claim says `invoke` never raises past its own
boundary because any exception raised during filter application is caught
by the Step Executor. But in `Flag.__call__` the filter loop runs before
the `try:` block, so at the concrete input `3` with a filter whose
callable raises, the exception propagates to the caller — no failure
sentinel, no failure event. -/
theorem C1_counterexample :
    Flag.call demoEnv boomFlag (.int 3) [] = .error (.other "boom") := by
  rfl

/-- C1 (amended): `invoke` raises past its own boundary exactly when a
filter raises, and then it passes that filter's exception through
unchanged; once the filter chain has succeeded, `invoke` returns
normally, and every exception caught inside the `try:` block results in
the uniform failure sentinel `False` plus a failure event in the trace —
a primary-input validation failure or an argument-resolution failure
yields the trace `[flagError]`, a failed action lookup yields
`[flagSuccess, flagError]`, and a raising action callable yields
`[flagSuccess, actionCalled, flagError]`, each with the sentinel as the
returned value. -/
theorem C1_amended_soft_boundary (env : Env) (fl : Flag) (d : PyVal)
    (acc : Accum) :
    (∀ e, Flag.call env fl d acc = .error e →
      applyFilters env fl.filters d acc = .error e) ∧
    (∀ data, applyFilters env fl.filters d acc = .ok data →
      (Flag.call env fl d acc).isOk = true ∧
      (∀ e, env.validate_parameter data fl.data_in_api
          ("Flag " ++ fl.action) = .error e →
        Flag.call env fl d acc = .ok ([.flagError], .bool false)) ∧
      (∀ data' e, env.validate_parameter data fl.data_in_api
          ("Flag " ++ fl.action) = .ok data' →
        dereference_step_routing fl.args acc
          ("In Flag " ++ fl.name) = .error e →
        Flag.call env fl d acc = .ok ([.flagError], .bool false)) ∧
      (∀ data' rargs, env.validate_parameter data fl.data_in_api
          ("Flag " ++ fl.action) = .ok data' →
        dereference_step_routing fl.args acc
          ("In Flag " ++ fl.name) = .ok rargs →
        env.get_flag fl.action = Option.none →
        Flag.call env fl d acc =
          .ok ([.flagSuccess, .flagError], .bool false)) ∧
      (∀ data' rargs f e, env.validate_parameter data fl.data_in_api
          ("Flag " ++ fl.action) = .ok data' →
        dereference_step_routing fl.args acc
          ("In Flag " ++ fl.name) = .ok rargs →
        env.get_flag fl.action = some f →
        f (dictUpdate rargs fl.data_in_api.name data') = .error e →
        Flag.call env fl d acc =
          .ok ([.flagSuccess,
                .actionCalled (dictUpdate rargs fl.data_in_api.name data'),
                .flagError], .bool false))) := by
  constructor
  · intro e he
    simp only [Flag.call] at he
    cases hf : applyFilters env fl.filters d acc with
    | error e' =>
      simp only [hf] at he
      injection he with h1
      rw [h1]
    | ok data =>
      simp only [hf] at he
      cases hv : env.validate_parameter data fl.data_in_api
          ("Flag " ++ fl.action) with
      | error e1 => simp [hv] at he
      | ok d' =>
        simp only [hv] at he
        cases hd : dereference_step_routing fl.args acc
            ("In Flag " ++ fl.name) with
        | error e2 => simp [hd] at he
        | ok rargs =>
          simp only [hd] at he
          cases hg : env.get_flag fl.action with
          | none => simp [hg] at he
          | some f =>
            simp only [hg] at he
            cases hr : f (dictUpdate rargs fl.data_in_api.name d') with
            | error e3 => simp [hr] at he
            | ok r => simp [hr] at he
  · intro data hf
    refine ⟨?_, ?_, ?_, ?_, ?_⟩
    · simp only [Flag.call, hf]
      cases hv : env.validate_parameter data fl.data_in_api
          ("Flag " ++ fl.action) with
      | error e => rfl
      | ok d' =>
        dsimp only
        cases hd : dereference_step_routing fl.args acc
            ("In Flag " ++ fl.name) with
        | error e => rfl
        | ok rargs =>
          dsimp only
          cases hg : env.get_flag fl.action with
          | none => rfl
          | some f =>
            dsimp only
            cases hr : f (dictUpdate rargs fl.data_in_api.name d') with
            | error e => rfl
            | ok r => rfl
    · intro e hv
      simp only [Flag.call, hf, hv]
    · intro data' e hv hd
      simp only [Flag.call, hf, hv, hd]
    · intro data' rargs hv hd hg
      simp only [Flag.call, hf, hv, hd, hg]
    · intro data' rargs f e hv hd hg hr
      simp only [Flag.call, hf, hv, hd, hg, hr]

/-- C1 witness: the amended theorem applied at concrete inputs — the one
invocation of `boomFlag` that raises does so because its filter raised;
`echoFlag` with succeeding filters returns normally; and the validation
failure (`plainFlag` on a string), resolution failure (`refFlag` on an
empty accumulator), lookup failure (`ghostFlag`), and raising action
(`raiserFlag`) paths each yield the sentinel plus a failure event. -/
theorem C1_amended_soft_boundary_witness :
    applyFilters demoEnv boomFlag.filters (.int 3) [] =
      .error (.other "boom") ∧
    (Flag.call demoEnv echoFlag (.int 3) []).isOk = true ∧
    Flag.call demoEnv plainFlag (.str "bad") [] =
      .ok ([.flagError], .bool false) ∧
    Flag.call demoEnv refFlag (.int 3) [] =
      .ok ([.flagError], .bool false) ∧
    Flag.call demoEnv ghostFlag (.int 3) [] =
      .ok ([.flagSuccess, .flagError], .bool false) ∧
    Flag.call demoEnv raiserFlag (.int 3) [] =
      .ok ([.flagSuccess, .actionCalled [("value", .int 3)], .flagError],
           .bool false) :=
  ⟨(C1_amended_soft_boundary demoEnv boomFlag (.int 3) []).1
      (.other "boom") (by rfl),
   ((C1_amended_soft_boundary demoEnv echoFlag (.int 3) []).2 (.int 8)
      (by rfl)).1,
   ((C1_amended_soft_boundary demoEnv plainFlag (.str "bad") []).2
      (.str "bad") (by rfl)).2.1 (.invalidInput "expected an integer")
      (by rfl),
   ((C1_amended_soft_boundary demoEnv refFlag (.int 3) []).2 (.int 3)
      (by rfl)).2.2.1 (.int 3)
      (.resolutionFailed "In Flag echo: unresolved reference in argument x")
      (by rfl) (by rfl),
   ((C1_amended_soft_boundary demoEnv ghostFlag (.int 3) []).2 (.int 3)
      (by rfl)).2.2.2.1 (.int 3) [] (by rfl) (by rfl) (by rfl),
   ((C1_amended_soft_boundary demoEnv raiserFlag (.int 3) []).2 (.int 3)
      (by rfl)).2.2.2.2 (.int 3) []
      (fun _ => .error (.other "action failed")) (.other "action failed")
      (by rfl) (by rfl) (by rfl) (by rfl)⟩

/-! ## C2 -/

/-- C2 counterexample: the claim says the resolved arguments are
re-validated against the action's declared parameter schema on every
call. Concretely: `refFlag` is constructible (its reference-expression
argument passes construction-time validation), yet when the accumulator
supplies a value for `stepA` that violates the parameter schema, `invoke`
still calls the action with those resolved arguments and returns its
result — even though the validator rejects both the resolved argument
mapping and the merged mapping. No per-call argument-schema check
happens in `Flag.__call__`. -/
theorem C2_counterexample :
    Flag.construct demoEnv (some "echo") (some [("x", .ref "stepA")])
      (some []) (some "uid-ref") "unused" = .ok refFlag ∧
    Flag.call demoEnv refFlag (.int 3) [("stepA", .str "oops")] =
      .ok ([.flagSuccess,
            .actionCalled [("x", .str "oops"), ("value", .int 3)]],
           .int 3) ∧
    demoEnv.validate_flag_parameters refFlag.args_api [("x", .str "oops")]
      refFlag.action =
      .error (.invalidInput "flag arguments do not satisfy schema A") :=
  ⟨by rfl, by rfl, by rfl⟩

/-- C2 (amended): on every invocation that reaches the action callable,
the filtered primary input was validated against the action's declared
primary-input schema beforehand (this is the check repeated on each
call), and the callable receives exactly the dereferenced arguments
merged with the validated value — the resolved arguments themselves are
not re-validated against the parameter schema at call time; that check
happens only at construction. -/
theorem C2_amended_primary_input_revalidated (env : Env) (fl : Flag)
    (d : PyVal) (acc : Accum) (tr : List Ev) (v : PyVal) (kwargs : Args)
    (h : Flag.call env fl d acc = .ok (tr, v))
    (hk : Ev.actionCalled kwargs ∈ tr) :
    ∃ data data' rargs,
      applyFilters env fl.filters d acc = .ok data ∧
      env.validate_parameter data fl.data_in_api
        ("Flag " ++ fl.action) = .ok data' ∧
      dereference_step_routing fl.args acc
        ("In Flag " ++ fl.name) = .ok rargs ∧
      kwargs = dictUpdate rargs fl.data_in_api.name data' := by
  simp only [Flag.call] at h
  cases hf : applyFilters env fl.filters d acc with
  | error e =>
    simp only [hf] at h
    exact Except.noConfusion h
  | ok data =>
    simp only [hf] at h
    cases hv : env.validate_parameter data fl.data_in_api
        ("Flag " ++ fl.action) with
    | error e1 =>
      simp only [hv, Except.ok.injEq, Prod.mk.injEq] at h
      rw [← h.1] at hk
      simp at hk
    | ok d' =>
      simp only [hv] at h
      cases hd : dereference_step_routing fl.args acc
          ("In Flag " ++ fl.name) with
      | error e2 =>
        simp only [hd, Except.ok.injEq, Prod.mk.injEq] at h
        rw [← h.1] at hk
        simp at hk
      | ok rargs =>
        simp only [hd] at h
        cases hg : env.get_flag fl.action with
        | none =>
          simp only [hg, Except.ok.injEq, Prod.mk.injEq] at h
          rw [← h.1] at hk
          simp at hk
        | some f =>
          simp only [hg] at h
          cases hr : f (dictUpdate rargs fl.data_in_api.name d') with
          | error e3 =>
            simp only [hr, Except.ok.injEq, Prod.mk.injEq] at h
            rw [← h.1] at hk
            simp at hk
            exact ⟨data, d', rargs, rfl, hv, rfl, hk⟩
          | ok r =>
            simp only [hr, Except.ok.injEq, Prod.mk.injEq] at h
            rw [← h.1] at hk
            simp at hk
            exact ⟨data, d', rargs, rfl, hv, rfl, hk⟩

/-- C2 witness: the amended theorem at the `refFlag` invocation — the
action was called, so the primary input had been validated and the
keyword arguments are the dereferenced-and-merged mapping. -/
theorem C2_amended_primary_input_revalidated_witness :
    ∃ data data' rargs,
      applyFilters demoEnv refFlag.filters (.int 3)
        [("stepA", .str "oops")] = .ok data ∧
      demoEnv.validate_parameter data refFlag.data_in_api
        ("Flag " ++ refFlag.action) = .ok data' ∧
      dereference_step_routing refFlag.args [("stepA", .str "oops")]
        ("In Flag " ++ refFlag.name) = .ok rargs ∧
      [("x", PyVal.str "oops"), ("value", PyVal.int 3)] =
        dictUpdate rargs refFlag.data_in_api.name data' :=
  C2_amended_primary_input_revalidated demoEnv refFlag (.int 3)
    [("stepA", .str "oops")]
    [.flagSuccess, .actionCalled [("x", .str "oops"), ("value", .int 3)]]
    (.int 3) [("x", .str "oops"), ("value", .int 3)] (by rfl) (by decide)

/-! ## C3 -/

/-- C3: when the filtered value fails the primary-input schema with the
typed `InvalidInput` error, `invoke` emits exactly one failure event,
returns the failure sentinel `False` without propagating the exception
(the result is a normal return), and the action callable is never
invoked (no action-call record appears in the trace). -/
theorem C3_invalid_input_recovered (env : Env) (fl : Flag) (d : PyVal)
    (acc : Accum) (data : PyVal) (m : String)
    (hf : applyFilters env fl.filters d acc = .ok data)
    (hv : env.validate_parameter data fl.data_in_api
      ("Flag " ++ fl.action) = .error (.invalidInput m)) :
    Flag.call env fl d acc = .ok ([.flagError], .bool false) ∧
    ∀ tr v, Flag.call env fl d acc = .ok (tr, v) →
      ∀ kwargs, Ev.actionCalled kwargs ∉ tr := by
  have hcall : Flag.call env fl d acc = .ok ([.flagError], .bool false) := by
    simp only [Flag.call, hf, hv]
  refine ⟨hcall, ?_⟩
  intro tr v h kwargs
  rw [hcall] at h
  simp only [Except.ok.injEq, Prod.mk.injEq] at h
  rw [← h.1]
  simp

/-- C3 witness: a flag with no filters invoked on a string input that
fails the integer primary-input schema — failure event, sentinel, and no
action call. -/
theorem C3_invalid_input_recovered_witness :
    Flag.call demoEnv plainFlag (.str "bad") [] =
      .ok ([.flagError], .bool false) ∧
    Ev.actionCalled [] ∉ [Ev.flagError] :=
  ⟨(C3_invalid_input_recovered demoEnv plainFlag (.str "bad") []
      (.str "bad") "expected an integer" (by rfl) (by rfl)).1,
   (C3_invalid_input_recovered demoEnv plainFlag (.str "bad") []
      (.str "bad") "expected an integer" (by rfl) (by rfl)).2
     [.flagError] (.bool false) (by rfl) []⟩

/-! ## C4 -/

/-- C4: when filtering, primary-input validation, and argument resolution
all succeed, the trace of the invocation starts with the success event —
in particular the success event precedes the action-call record — and if
the action callable then raises, the invocation's trace is exactly
success event, action call, failure event, in that order, and the
invocation returns the failure sentinel. -/
theorem C4_success_event_before_action (env : Env) (fl : Flag) (d : PyVal)
    (acc : Accum) (data data' : PyVal) (rargs : Args)
    (hf : applyFilters env fl.filters d acc = .ok data)
    (hv : env.validate_parameter data fl.data_in_api
      ("Flag " ++ fl.action) = .ok data')
    (hd : dereference_step_routing fl.args acc
      ("In Flag " ++ fl.name) = .ok rargs) :
    (∀ tr v, Flag.call env fl d acc = .ok (tr, v) →
      tr.head? = some Ev.flagSuccess) ∧
    (∀ f e, env.get_flag fl.action = some f →
      f (dictUpdate rargs fl.data_in_api.name data') = .error e →
      Flag.call env fl d acc =
        .ok ([.flagSuccess,
              .actionCalled (dictUpdate rargs fl.data_in_api.name data'),
              .flagError], .bool false)) := by
  constructor
  · intro tr v h
    simp only [Flag.call, hf, hv, hd] at h
    cases hg : env.get_flag fl.action with
    | none =>
      simp only [hg, Except.ok.injEq, Prod.mk.injEq] at h
      rw [← h.1]
      rfl
    | some f =>
      simp only [hg] at h
      cases hr : f (dictUpdate rargs fl.data_in_api.name data') with
      | error e =>
        simp only [hr, Except.ok.injEq, Prod.mk.injEq] at h
        rw [← h.1]
        rfl
      | ok r =>
        simp only [hr, Except.ok.injEq, Prod.mk.injEq] at h
        rw [← h.1]
        rfl
  · intro f e hg hr
    simp only [Flag.call, hf, hv, hd, hg, hr]

/-- C4 witness: a flag whose action raises — the trace is success event,
action call, failure event, and the result is the sentinel; the first
trace entry is the success event. -/
theorem C4_success_event_before_action_witness :
    ([Ev.flagSuccess, Ev.actionCalled [("value", PyVal.int 3)],
      Ev.flagError].head? = some Ev.flagSuccess) ∧
    Flag.call demoEnv raiserFlag (.int 3) [] =
      .ok ([.flagSuccess, .actionCalled [("value", .int 3)], .flagError],
           .bool false) :=
  ⟨(C4_success_event_before_action demoEnv raiserFlag (.int 3) []
      (.int 3) (.int 3) [] (by rfl) (by rfl) (by rfl)).1
      [.flagSuccess, .actionCalled [("value", .int 3)], .flagError]
      (.bool false) (by rfl),
   (C4_success_event_before_action demoEnv raiserFlag (.int 3) []
      (.int 3) (.int 3) [] (by rfl) (by rfl) (by rfl)).2
      (fun _ => .error (.other "action failed")) (.other "action failed")
      (by rfl) (by rfl)⟩

/-! ## C5 -/

/-- C5: with a valid input and arguments that resolve successfully, and
an action callable that returns, `invoke` records exactly one action
call, passes the callable the dereferenced arguments merged with the
validated filtered value under the declared primary-input parameter
name, and returns the callable's return value unmodified. -/
theorem C5_action_called_once (env : Env) (fl : Flag) (d : PyVal)
    (acc : Accum) (data data' : PyVal) (rargs : Args)
    (f : Args → Except Exc PyVal) (r : PyVal)
    (hf : applyFilters env fl.filters d acc = .ok data)
    (hv : env.validate_parameter data fl.data_in_api
      ("Flag " ++ fl.action) = .ok data')
    (hd : dereference_step_routing fl.args acc
      ("In Flag " ++ fl.name) = .ok rargs)
    (hg : env.get_flag fl.action = some f)
    (hr : f (dictUpdate rargs fl.data_in_api.name data') = .ok r) :
    Flag.call env fl d acc =
      .ok ([.flagSuccess,
            .actionCalled (dictUpdate rargs fl.data_in_api.name data')],
           r) ∧
    ∀ tr v, Flag.call env fl d acc = .ok (tr, v) →
      v = r ∧ tr.countP Ev.isActionCall = 1 ∧
      Ev.actionCalled (dictUpdate rargs fl.data_in_api.name data') ∈ tr := by
  have hcall : Flag.call env fl d acc =
      .ok ([.flagSuccess,
            .actionCalled (dictUpdate rargs fl.data_in_api.name data')],
           r) := by
    simp only [Flag.call, hf, hv, hd, hg, hr]
  refine ⟨hcall, ?_⟩
  intro tr v h
  rw [hcall] at h
  simp only [Except.ok.injEq, Prod.mk.injEq] at h
  refine ⟨h.2.symm, ?_, ?_⟩
  · rw [← h.1]
    rfl
  · rw [← h.1]
    simp

/-- C5 witness: `echoFlag` on input `3` — the filters produce `8`, the
callable is invoked once with `{extra: 7, value: 8}` and its return value
`8` comes back unmodified. -/
theorem C5_action_called_once_witness :
    Flag.call demoEnv echoFlag (.int 3) [] =
      .ok ([.flagSuccess,
            .actionCalled [("extra", .int 7), ("value", .int 8)]],
           .int 8) ∧
    PyVal.int 8 = PyVal.int 8 ∧
    ([Ev.flagSuccess,
      Ev.actionCalled [("extra", PyVal.int 7), ("value", PyVal.int 8)]] :
        List Ev).countP Ev.isActionCall = 1 ∧
    Ev.actionCalled [("extra", PyVal.int 7), ("value", PyVal.int 8)] ∈
      [Ev.flagSuccess,
       Ev.actionCalled [("extra", PyVal.int 7), ("value", PyVal.int 8)]] :=
  ⟨(C5_action_called_once demoEnv echoFlag (.int 3) [] (.int 8) (.int 8)
      [("extra", .int 7)]
      (fun kwargs => .ok ((kwargs.lookup "value").getD .none)) (.int 8)
      (by rfl) (by rfl) (by rfl) (by rfl) (by rfl)).1,
   (C5_action_called_once demoEnv echoFlag (.int 3) [] (.int 8) (.int 8)
      [("extra", .int 7)]
      (fun kwargs => .ok ((kwargs.lookup "value").getD .none)) (.int 8)
      (by rfl) (by rfl) (by rfl) (by rfl) (by rfl)).2
     [.flagSuccess, .actionCalled [("extra", .int 7), ("value", .int 8)]]
     (.int 8) (by rfl)⟩

/-! ## C6 -/

/-- A filter's JSON round trip is the identity on its declaration data. -/
theorem Filter.from_json_as_json (f : Filter) :
    Filter.from_json (Filter.as_json f) = f := rfl

/-- A constructed Flag with one literal argument and one filter, for the
populated round-trip instance. -/
def popFlag : Flag :=
  { name := "echo", uid := "u7", action := "echo", args_api := "A",
    data_in_api := ⟨"value", "S"⟩, args := [("extra", .int 7)],
    filters := [⟨"addOne", []⟩] }

/-- C6: deserializing the serialized JSON form of a constructible Step
reconstructs an identical Step — same action, same id (present in the
source document), same argument name/value pairs, same filter order —
for empty and populated argument and filter lists alike. The two
hypotheses about the external validator are what the spec guarantees of
it: the Flag's argument dict has unique keys (it is a Python dict) and
re-validating already-validated arguments returns them unchanged
(validation is coercion, and coercion is idempotent). -/
theorem C6_json_round_trip (env : Env) (a : String) (args0 : Option Args)
    (fs : Option (List Filter)) (u : Option String) (fr fresh2 : String)
    (fl : Flag)
    (hc : Flag.construct env (some a) args0 fs u fr = .ok fl)
    (hidem : env.validate_flag_parameters fl.args_api fl.args fl.action =
      .ok fl.args)
    (hnodup : (fl.args.map Prod.fst).Nodup) :
    Flag.from_json env fl.as_json fresh2 = .ok fl := by
  simp only [Flag.construct] at hc
  cases hapi : env.flag_api a with
  | none =>
    simp only [hapi] at hc
    exact Except.noConfusion hc
  | some apis =>
    simp only [hapi] at hc
    cases hval : env.validate_flag_parameters apis.1 (args0.getD []) a with
    | error e =>
      simp only [hval] at hc
      exact Except.noConfusion hc
    | ok vargs =>
      simp only [hval, Except.ok.injEq] at hc
      subst hc
      dsimp only at hidem hnodup
      simp only [Flag.from_json, Flag.as_json]
      rw [dictOfList_eq_self _ hnodup]
      simp only [Flag.construct, hapi, Option.getD_some, hidem]
      simp only [List.map_map]
      have hmap : ∀ l : List Filter,
          List.map (Filter.from_json ∘ Filter.as_json) l = l := by
        intro l
        induction l with
        | nil => rfl
        | cons x xs ih => simp [Function.comp, Filter.from_json_as_json, ih]
      simp [hmap]

/-- C6 witness: the round trip at a populated Flag (one argument, one
filter) and at an empty one (no arguments, no filters), both built by
the constructor against the demonstration environment. -/
theorem C6_json_round_trip_witness :
    Flag.from_json demoEnv popFlag.as_json "freshZ" = .ok popFlag ∧
    Flag.from_json demoEnv plainFlag.as_json "freshZ2" = .ok plainFlag :=
  ⟨C6_json_round_trip demoEnv "echo" (some [("extra", .int 7)])
      (some [⟨"addOne", []⟩]) (some "u7") "fr0" "freshZ" popFlag
      (by rfl) (by rfl) (by decide),
   C6_json_round_trip demoEnv "echo" (some []) (some [])
      (some "uid-plain") "fr0" "freshZ2" plainFlag
      (by rfl) (by rfl) (by decide)⟩

/-! ## C7 -/

/-- The id a deserialized Flag ends up with: the document's `uid` when
present, the freshly minted value otherwise. -/
theorem Flag.from_json_uid (env : Env) (j : FlagJson) (fr : String)
    (fl : Flag) (h : Flag.from_json env j fr = .ok fl) :
    fl.uid = j.uid.getD fr := by
  simp only [Flag.from_json, Flag.construct, Option.getD_some] at h
  cases hapi : env.flag_api j.action with
  | none =>
    simp only [hapi] at h
    exact Except.noConfusion h
  | some apis =>
    simp only [hapi] at h
    cases hval : env.validate_flag_parameters apis.1 (dictOfList j.args)
        j.action with
    | error e =>
      simp only [hval] at h
      exact Except.noConfusion h
    | ok vargs =>
      simp only [hval, Except.ok.injEq] at h
      rw [← h]

/-- The shape a Flag deserialized from an id-less empty document takes,
parameterized by the minted id. -/
def mintedFlag (u : String) : Flag :=
  { name := "echo", uid := u, action := "echo", args_api := "A",
    data_in_api := ⟨"value", "S"⟩, args := [], filters := [] }

/-- An id-less transport document. -/
def noUidJson : FlagJson :=
  { uid := Option.none, action := "echo", args := [], filters := [] }

/-- A transport document carrying an id. -/
def withUidJson : FlagJson :=
  { uid := some "keep", action := "echo", args := [], filters := [] }

/-- C7: when the transport document lacks an id, deserialization mints a
fresh one — two deserializations of the same id-less document with
distinct minted values yield Steps with distinct ids; when the document
carries an id, that id is used verbatim. -/
theorem C7_uid_minting (env : Env) (j : FlagJson) (f1 f2 : String)
    (fl1 fl2 : Flag) (u : String) :
    (j.uid = Option.none → f1 ≠ f2 →
      Flag.from_json env j f1 = .ok fl1 →
      Flag.from_json env j f2 = .ok fl2 → fl1.uid ≠ fl2.uid) ∧
    (j.uid = some u → Flag.from_json env j f1 = .ok fl1 →
      fl1.uid = u) := by
  constructor
  · intro hnone hne h1 h2
    rw [Flag.from_json_uid env j f1 fl1 h1,
      Flag.from_json_uid env j f2 fl2 h2, hnone]
    simpa using hne
  · intro hsome h1
    rw [Flag.from_json_uid env j f1 fl1 h1, hsome]
    rfl

/-- C7 witness: two deserializations of the id-less document with minted
values `"aa"` and `"bb"` give distinct ids, and deserializing the
document carrying `"keep"` preserves it. -/
theorem C7_uid_minting_witness :
    (mintedFlag "aa").uid ≠ (mintedFlag "bb").uid ∧
    (mintedFlag "keep").uid = "keep" :=
  ⟨(C7_uid_minting demoEnv noUidJson "aa" "bb" (mintedFlag "aa")
      (mintedFlag "bb") "x").1 (by rfl) (by decide) (by rfl) (by rfl),
   (C7_uid_minting demoEnv withUidJson "f1" "f2" (mintedFlag "keep")
      (mintedFlag "keep") "keep").2 (by rfl) (by rfl)⟩

/-! ## C8 -/

/-- C8: construction fails atomically — no Flag object is produced —
whenever a construction-time contract is violated: no action and no
transport document raises the malformed-declaration error; an action
absent from the Action Directory fails the lookup; and arguments the
validator rejects abort construction with the validation error. -/
theorem C8_construction_atomic (env : Env) (args0 : Option Args)
    (fs : Option (List Filter)) (u : Option String) (fr : String) :
    Flag.construct env Option.none args0 fs u fr =
      .error (.invalidElementConstructed
        "Action or xml must be specified in flag constructor") ∧
    (∀ a, env.flag_api a = Option.none →
      Flag.construct env (some a) args0 fs u fr =
        .error (.unknownFlag a)) ∧
    (∀ a apis e, env.flag_api a = some apis →
      env.validate_flag_parameters apis.1 (args0.getD []) a = .error e →
      Flag.construct env (some a) args0 fs u fr = .error e) := by
  refine ⟨rfl, ?_, ?_⟩
  · intro a ha
    simp [Flag.construct, ha]
  · intro a apis e ha hv
    simp [Flag.construct, ha, hv]

/-- C8 witness: the three construction failures at concrete inputs — no
action given, an action unknown to the directory, and arguments the
validator rejects. -/
theorem C8_construction_atomic_witness :
    Flag.construct demoEnv Option.none (some []) (some []) Option.none
      "fr" = .error (.invalidElementConstructed
        "Action or xml must be specified in flag constructor") ∧
    Flag.construct demoEnv (some "nosuch") (some []) (some [])
      Option.none "fr" = .error (.unknownFlag "nosuch") ∧
    Flag.construct demoEnv (some "echo") (some [("x", .str "bad")])
      (some []) Option.none "fr" =
      .error (.invalidInput "flag arguments do not satisfy schema A") :=
  ⟨(C8_construction_atomic demoEnv (some []) (some []) Option.none
      "fr").1,
   (C8_construction_atomic demoEnv (some []) (some []) Option.none
      "fr").2.1 "nosuch" (by rfl),
   (C8_construction_atomic demoEnv (some [("x", .str "bad")]) (some [])
      Option.none "fr").2.2 "echo" ("A", ⟨"value", "S"⟩)
     (.invalidInput "flag arguments do not satisfy schema A")
     (by rfl) (by rfl)⟩

/-! ## C9 -/

/-- C9: filter application composes in sequence order — running a
concatenated chain is running the first chain and feeding its output to
the second, each filter consuming its predecessor's output and the
shared accumulator — and concretely, filters `[addOne, double]` on input
`3` deliver `8` to validation while `[double, addOne]` deliver `7`. -/
theorem C9_filter_sequence (env : Env) (acc : Accum) :
    (∀ fs gs : List Filter, ∀ d : PyVal,
      applyFilters env (fs ++ gs) d acc =
        (applyFilters env fs d acc).bind fun d' =>
          applyFilters env gs d' acc) ∧
    applyFilters demoEnv [⟨"addOne", []⟩, ⟨"double", []⟩] (.int 3) acc =
      .ok (.int 8) ∧
    applyFilters demoEnv [⟨"double", []⟩, ⟨"addOne", []⟩] (.int 3) acc =
      .ok (.int 7) := by
  refine ⟨?_, by rfl, by rfl⟩
  intro fs gs d
  induction fs generalizing d with
  | nil => rfl
  | cons f fs ih =>
    simp only [List.cons_append, applyFilters]
    cases hc : Filter.call env f d acc with
    | error e => rfl
    | ok d2 => exact ih d2

/-! ## C10 -/

/-- C10: the uniform failure sentinel on every recovered error path is
the boolean `False` — whenever a failure event appears in the trace, the
returned value is `PyVal.bool false` — and an action callable that
legitimately returns `False` produces the same return value as a failed
invocation (here: the same flag input against a raising action), the two
distinguishable only by their traces. -/
theorem C10_sentinel_is_false (env : Env) (fl : Flag) (d : PyVal)
    (acc : Accum) :
    (∀ tr v, Flag.call env fl d acc = .ok (tr, v) →
      Ev.flagError ∈ tr → v = .bool false) ∧
    Flag.call demoEnv falseyFlag (.int 3) [] =
      .ok ([.flagSuccess, .actionCalled [("value", .int 3)]],
           .bool false) ∧
    Flag.call demoEnv raiserFlag (.int 3) [] =
      .ok ([.flagSuccess, .actionCalled [("value", .int 3)], .flagError],
           .bool false) := by
  refine ⟨?_, by rfl, by rfl⟩
  intro tr v h hmem
  simp only [Flag.call] at h
  cases hf : applyFilters env fl.filters d acc with
  | error e =>
    simp only [hf] at h
    exact Except.noConfusion h
  | ok data =>
    simp only [hf] at h
    cases hv : env.validate_parameter data fl.data_in_api
        ("Flag " ++ fl.action) with
    | error e =>
      simp only [hv, Except.ok.injEq, Prod.mk.injEq] at h
      exact h.2.symm
    | ok d' =>
      simp only [hv] at h
      cases hd : dereference_step_routing fl.args acc
          ("In Flag " ++ fl.name) with
      | error e =>
        simp only [hd, Except.ok.injEq, Prod.mk.injEq] at h
        exact h.2.symm
      | ok rargs =>
        simp only [hd] at h
        cases hg : env.get_flag fl.action with
        | none =>
          simp only [hg, Except.ok.injEq, Prod.mk.injEq] at h
          exact h.2.symm
        | some f =>
          simp only [hg] at h
          cases hr : f (dictUpdate rargs fl.data_in_api.name d') with
          | error e =>
            simp only [hr, Except.ok.injEq, Prod.mk.injEq] at h
            exact h.2.symm
          | ok r =>
            simp only [hr, Except.ok.injEq, Prod.mk.injEq] at h
            rw [← h.1] at hmem
            simp at hmem

/-- C10 witness: the sentinel characterization applied at the raising
action's concrete invocation, whose hypotheses hold by evaluation. -/
theorem C10_sentinel_is_false_witness :
    PyVal.bool false = PyVal.bool false :=
  (C10_sentinel_is_false demoEnv raiserFlag (.int 3) []).1
    [.flagSuccess, .actionCalled [("value", .int 3)], .flagError]
    (.bool false) (by rfl) (by decide)

end Walkoff
